import Mathlib

set_option autoImplicit false

namespace KimaiApp

/-!
Shallow embedding of `src/src-tauri/src/lib.rs`: the Tauri command handlers
for credential persistence (`save_credentials`, `load_credentials`,
`clear_credentials`), the window-visibility commands (`show_main_window`,
`hide_main_window`, `update_tray_tooltip`) and the tray/menu event handlers
installed in `run` (`on_tray_icon_event`, `on_menu_event`).

The host framework's fallible calls (store build/save, window show/hide/
focus/visibility query, tooltip set) are modelled by an explicit environment
of success flags; the persisted key-value document is an association list
from string keys to JSON values.
-/

/-- JSON values held by the store, mirroring `serde_json::Value`. -/
inductive JValue where
  | null
  | bool (b : Bool)
  | num (n : Int)
  | str (s : String)
  | arr (xs : List JValue)
  | obj (kvs : List (String × JValue))

/-- Mirrors `Value::as_str()`: `Some` exactly on the `String` variant. -/
def JValue.asStr : JValue → Option String
  | .str s => some s
  | _ => none

/-- Whether the value is the `String` variant. -/
def JValue.isStr : JValue → Bool
  | .str _ => true
  | _ => false

/-- The contents of the `credentials.json` key-value document. -/
abbrev Doc := List (String × JValue)

/-- Environment of the store plugin: the document on disk (`none` when it
was never created) and success flags for `StoreBuilder::build` and
`Store::save`. -/
structure StoreEnv where
  disk : Option Doc
  buildOk : Bool
  saveOk : Bool

/-- Mirrors `Store::get`: lookup of a key in the document. -/
def storeGet : Doc → String → Option JValue
  | [], _ => none
  | kv :: rest, k => if kv.1 = k then some kv.2 else storeGet rest k

/-- Mirrors `Store::set`: insert or overwrite a key. -/
def storeSet : Doc → String → JValue → Doc
  | [], k, v => [(k, v)]
  | kv :: rest, k, v => if kv.1 = k then (k, v) :: rest else kv :: storeSet rest k v

/-- Mirrors `Store::clear`: remove every entry. -/
def storeClear (_d : Doc) : Doc := []

/-- Mirrors `StoreBuilder::new(&app, "credentials.json").build()`: opens the
document, loading its contents from disk (empty when never created), or
fails when the build fails. -/
def buildStore (env : StoreEnv) : Except String Doc :=
  if env.buildOk then .ok (env.disk.getD []) else .error "failed to open store"

/-- Mirrors `Store::save`: flush the in-memory document to disk. -/
def storeSave (env : StoreEnv) (d : Doc) : Except String StoreEnv :=
  if env.saveOk then .ok { env with disk := some d } else .error "failed to save store"

/-- Mirrors the `save_credentials` command: build the store, set both keys
to string values, save. Errors propagate via `?`. -/
def save_credentials (env : StoreEnv) (server_url api_token : String) : Except String StoreEnv :=
  match buildStore env with
  | .error e => .error e
  | .ok store =>
    let store1 := storeSet store "server_url" (JValue.str server_url)
    let store2 := storeSet store1 "api_token" (JValue.str api_token)
    storeSave env store2

/-- Mirrors the `load_credentials` command: build the store, read both keys
via `as_str`, and return the pair only when both are present as strings. -/
def load_credentials (env : StoreEnv) : Except String (Option (String × String)) :=
  match buildStore env with
  | .error e => .error e
  | .ok store =>
    let server_url := (storeGet store "server_url").bind JValue.asStr
    let api_token := (storeGet store "api_token").bind JValue.asStr
    match server_url, api_token with
    | some url, some token => .ok (some (url, token))
    | _, _ => .ok none

/-- Mirrors the `clear_credentials` command: build the store, clear it,
save. -/
def clear_credentials (env : StoreEnv) : Except String StoreEnv :=
  match buildStore env with
  | .error e => .error e
  | .ok store => storeSave env (storeClear store)

theorem storeGet_storeSet_same (d : Doc) (k : String) (v : JValue) :
    storeGet (storeSet d k v) k = some v := by
  induction d with
  | nil => simp [storeSet, storeGet]
  | cons kv rest ih =>
    by_cases h : kv.1 = k <;> simp [storeSet, storeGet, h, ih]

theorem storeGet_storeSet_ne (d : Doc) (k k2 : String) (v : JValue) (h : k2 ≠ k) :
    storeGet (storeSet d k v) k2 = storeGet d k2 := by
  induction d with
  | nil => simp [storeSet, storeGet, Ne.symm h]
  | cons kv rest ih =>
    by_cases hk : kv.1 = k
    · simp [storeSet, storeGet, hk, Ne.symm h, h]
    · by_cases hk2 : kv.1 = k2 <;> simp [storeSet, storeGet, hk, hk2, ih, h]

/-- Characterization of a successful `save_credentials`: it succeeds exactly
when build and save succeed, and writes both keys over the loaded document. -/
theorem save_credentials_ok (env env2 : StoreEnv) (u t : String)
    (h : save_credentials env u t = .ok env2) :
    env.buildOk = true ∧ env.saveOk = true ∧
      env2 = { env with disk := some (storeSet (storeSet (env.disk.getD []) "server_url"
        (JValue.str u)) "api_token" (JValue.str t)) } := by
  unfold save_credentials buildStore storeSave at h
  by_cases hb : env.buildOk
  · by_cases hs : env.saveOk
    · simp [hb, hs] at h
      refine ⟨hb, hs, ?_⟩
      rw [hb, hs]
      exact h.symm
    · simp [hb, hs] at h
  · simp [hb] at h

/-- Characterization of a successful `clear_credentials`. -/
theorem clear_credentials_ok (env env2 : StoreEnv)
    (h : clear_credentials env = .ok env2) :
    env.buildOk = true ∧ env.saveOk = true ∧ env2 = { env with disk := some [] } := by
  unfold clear_credentials buildStore storeSave storeClear at h
  by_cases hb : env.buildOk
  · by_cases hs : env.saveOk
    · simp [hb, hs] at h
      refine ⟨hb, hs, ?_⟩
      rw [hb, hs]
      exact h.symm
    · simp [hb, hs] at h
  · simp [hb] at h

/-- C1: for every pair of strings u and t (including empty strings), a
successful `save_credentials u t` followed by `load_credentials` yields
`some (u, t)`; the empty string is treated as present, not absent. -/
theorem save_then_load_roundtrip (env env2 : StoreEnv) (u t : String)
    (h : save_credentials env u t = .ok env2) :
    load_credentials env2 = .ok (some (u, t)) := by
  obtain ⟨hb, _hs, henv2⟩ := save_credentials_ok env env2 u t h
  subst henv2
  have hneq : ("server_url" : String) ≠ "api_token" := by decide
  simp [load_credentials, buildStore, hb, storeGet_storeSet_same,
    storeGet_storeSet_ne _ _ _ _ hneq, JValue.asStr]

/-- A fresh store environment: no document on disk, all host calls succeed. -/
def envFresh : StoreEnv := { disk := none, buildOk := true, saveOk := true }

/-- The store environment after saving the empty credential pair from `envFresh`. -/
def envEmptyPair : StoreEnv :=
  { disk := some [("server_url", JValue.str ""), ("api_token", JValue.str "")], buildOk := true, saveOk := true }

/-- C1 witness: saving the empty pair from a fresh environment and loading
yields the (present) empty pair. -/
theorem save_then_load_roundtrip_witness :
    load_credentials envEmptyPair = .ok (some ("", "")) :=
  save_then_load_roundtrip envFresh envEmptyPair "" "" rfl

/-- C2: `load_credentials` errors exactly when the document cannot be opened;
on a never-created document it yields `none`; it yields `some (u, t)` exactly
when both keys are present with string values u and t, and `none` when either
key is absent or not a string. -/
theorem load_credentials_spec (env : StoreEnv) :
    (env.buildOk = false → load_credentials env = .error "failed to open store")
    ∧ (env.buildOk = true → env.disk = none → load_credentials env = .ok none)
    ∧ (env.buildOk = true →
        ∀ u t : String,
          (load_credentials env = .ok (some (u, t)) ↔
            storeGet (env.disk.getD []) "server_url" = some (JValue.str u) ∧
              storeGet (env.disk.getD []) "api_token" = some (JValue.str t)))
    ∧ (env.buildOk = true →
        ((storeGet (env.disk.getD []) "server_url").bind JValue.asStr = none ∨
          (storeGet (env.disk.getD []) "api_token").bind JValue.asStr = none) →
        load_credentials env = .ok none)
    ∧ (∀ e, load_credentials env = .error e → env.buildOk = false) := by
  have heq : env.buildOk = true → load_credentials env =
      match (storeGet (env.disk.getD []) "server_url").bind JValue.asStr,
            (storeGet (env.disk.getD []) "api_token").bind JValue.asStr with
      | some url, some token => .ok (some (url, token))
      | _, _ => .ok none := by
    intro hb
    simp [load_credentials, buildStore, hb]
  refine ⟨?_, ?_, ?_, ?_, ?_⟩
  · intro hb
    simp [load_credentials, buildStore, hb]
  · intro hb hd
    rw [heq hb, hd]
    simp [storeGet]
  · intro hb u t
    rw [heq hb]
    cases hsu : storeGet (env.disk.getD []) "server_url" with
    | none =>
      cases htk : storeGet (env.disk.getD []) "api_token" with
      | none => simp
      | some v2 => cases v2 <;> simp [JValue.asStr]
    | some v =>
      cases htk : storeGet (env.disk.getD []) "api_token" with
      | none => cases v <;> simp [JValue.asStr]
      | some v2 =>
        cases v <;> cases v2 <;> simp [JValue.asStr]
  · intro hb hnone
    rw [heq hb]
    cases hsu : storeGet (env.disk.getD []) "server_url" with
    | none =>
      cases htk : storeGet (env.disk.getD []) "api_token" with
      | none => simp
      | some v2 => cases v2 <;> simp [JValue.asStr]
    | some v =>
      cases htk : storeGet (env.disk.getD []) "api_token" with
      | none => cases v <;> simp [JValue.asStr]
      | some v2 =>
        rw [hsu, htk] at hnone
        cases v <;> cases v2 <;> simp [JValue.asStr]
        simp [JValue.asStr] at hnone
  · intro e h
    by_cases hb : env.buildOk
    · rw [heq hb] at h
      have hnoerr : ∀ (o1 o2 : Option String),
          (match o1, o2 with
            | some url, some token => Except.ok (some (url, token))
            | _, _ => (Except.ok none : Except String (Option (String × String)))) ≠
            Except.error e := by
        intro o1 o2
        cases o1 <;> cases o2 <;> simp
      exact absurd h (hnoerr _ _)
    · simpa using hb

/-- A store environment holding only the `server_url` key: the partial state
of the spec's edge case. -/
def envPartial : StoreEnv :=
  { disk := some [("server_url", JValue.str "https://kimai.example")], buildOk := true, saveOk := true }

/-- A store environment whose document cannot be opened. -/
def envBuildFail : StoreEnv := { disk := none, buildOk := false, saveOk := true }

/-- C2 witness: with only `server_url` set, loading yields `none`; with a
failing build, loading yields the storage error. -/
theorem load_credentials_spec_witness :
    load_credentials envPartial = .ok none ∧
      load_credentials envBuildFail = .error "failed to open store" :=
  ⟨(load_credentials_spec envPartial).2.2.2.1 rfl (Or.inr rfl),
    (load_credentials_spec envBuildFail).1 rfl⟩

/-- C3: a successful `clear_credentials` followed by `load_credentials`
yields `none`, whatever the prior store content. -/
theorem clear_then_load (env env2 : StoreEnv)
    (h : clear_credentials env = .ok env2) :
    load_credentials env2 = .ok none := by
  obtain ⟨hb, _hs, henv2⟩ := clear_credentials_ok env env2 h
  subst henv2
  simp [load_credentials, buildStore, hb, storeGet]

/-- A store environment holding a full credential pair. -/
def envFullPair : StoreEnv :=
  { disk := some [("server_url", JValue.str "https://kimai.example"), ("api_token", JValue.str "tok")], buildOk := true, saveOk := true }

/-- The environment `envFullPair` after a successful clear. -/
def envCleared : StoreEnv :=
  { disk := some [], buildOk := true, saveOk := true }

/-- C3 witness: clearing a store that held a full pair and loading yields
`none`. -/
theorem clear_then_load_witness :
    load_credentials envCleared = .ok none :=
  clear_then_load envFullPair envCleared rfl

/-- One credential-store operation of the command surface. -/
inductive CredOp where
  | saveOp (u t : String)
  | clearOp

/-- Run one operation against the environment; a failed operation leaves the
disk unchanged (build failure changes nothing, save failure never reaches
the disk). -/
def applyCredOp (env : StoreEnv) (op : CredOp) : StoreEnv :=
  match op with
  | .saveOp u t =>
    match save_credentials env u t with
    | .ok env2 => env2
    | .error _ => env
  | .clearOp =>
    match clear_credentials env with
    | .ok env2 => env2
    | .error _ => env

/-- Run a sequence of credential-store operations. -/
def runCredOps (env : StoreEnv) (ops : List CredOp) : StoreEnv :=
  ops.foldl applyCredOp env

/-- The document holds at most the keys `server_url` and `api_token`, all
values strings. -/
def docOk (d : Doc) : Bool :=
  d.all fun kv => (kv.1 == "server_url" || kv.1 == "api_token") && kv.2.isStr

/-- The invariant on the disk: a never-created document, or one satisfying
`docOk`. -/
def diskOk : Option Doc → Bool
  | none => true
  | some d => docOk d

theorem docOk_storeSet (d : Doc) (k : String) (s : String)
    (hk : k = "server_url" ∨ k = "api_token") (hd : docOk d = true) :
    docOk (storeSet d k (JValue.str s)) = true := by
  induction d with
  | nil =>
    rcases hk with hk | hk <;> simp [storeSet, docOk, hk, JValue.isStr]
  | cons kv rest ih =>
    obtain ⟨k1, v1⟩ := kv
    simp only [docOk, List.all_cons, Bool.and_eq_true] at hd
    by_cases h : k1 = k
    · subst h
      have hset : storeSet ((k1, v1) :: rest) k1 (JValue.str s) = (k1, JValue.str s) :: rest := by
        simp [storeSet]
      rw [hset]
      rcases hk with hk | hk <;> subst hk <;>
        simp_all [docOk, List.all_cons, JValue.isStr] <;> exact hd.2
    · have hset : storeSet ((k1, v1) :: rest) k (JValue.str s) =
          (k1, v1) :: storeSet rest k (JValue.str s) := by
        simp [storeSet, h]
      rw [hset]
      simp only [docOk, List.all_cons, Bool.and_eq_true] at ih ⊢
      exact ⟨hd.1, ih hd.2⟩

theorem diskOk_applyCredOp (env : StoreEnv) (op : CredOp)
    (h : diskOk env.disk = true) :
    diskOk (applyCredOp env op).disk = true := by
  have hbase : docOk (env.disk.getD []) = true := by
    cases hd : env.disk with
    | none => simp [docOk]
    | some d => rw [hd] at h; simpa [diskOk] using h
  cases op with
  | saveOp u t =>
    simp only [applyCredOp]
    cases hs : save_credentials env u t with
    | error e => exact h
    | ok env2 =>
      obtain ⟨_, _, henv2⟩ := save_credentials_ok env env2 u t hs
      subst henv2
      simp only [diskOk]
      exact docOk_storeSet _ _ _ (Or.inr rfl)
        (docOk_storeSet _ _ _ (Or.inl rfl) hbase)
  | clearOp =>
    simp only [applyCredOp]
    cases hs : clear_credentials env with
    | error e => exact h
    | ok env2 =>
      obtain ⟨_, _, henv2⟩ := clear_credentials_ok env env2 hs
      subst henv2
      simp [diskOk, docOk]

/-- C8: after any sequence of save and clear operations starting from a disk
satisfying the invariant (in particular from an empty or never-created
document), the persisted document contains at most the keys `server_url`
and `api_token`, and all its values are strings. -/
theorem credential_document_invariant (env : StoreEnv) (ops : List CredOp)
    (h : diskOk env.disk = true) :
    diskOk (runCredOps env ops).disk = true := by
  induction ops generalizing env with
  | nil => simpa [runCredOps] using h
  | cons op rest ih =>
    simp only [runCredOps, List.foldl_cons]
    exact ih (applyCredOp env op) (diskOk_applyCredOp env op h)

/-- C8 witness: a concrete operation sequence from the never-created disk
keeps the invariant. -/
theorem credential_document_invariant_witness :
    diskOk (runCredOps envFresh
      [CredOp.saveOp "https://kimai.example" "tok", CredOp.clearOp, CredOp.saveOp "u" ""]).disk = true :=
  credential_document_invariant envFresh
    [CredOp.saveOp "https://kimai.example" "tok", CredOp.clearOp, CredOp.saveOp "u" ""] rfl

/-- The main window's observable state: visibility and input focus. -/
structure Window where
  visible : Bool
  focused : Bool
  deriving DecidableEq

/-- Success flags for the host framework's fallible window and tray calls. -/
structure WinEnv where
  showOk : Bool
  hideOk : Bool
  focusOk : Bool
  visQueryOk : Bool
  tooltipOk : Bool
  deriving DecidableEq

/-- The application state the handlers touch: the optional main window, the
tray icon with id "main" and its tooltip, and the requested exit code. -/
structure AppState where
  window : Option Window
  trayExists : Bool
  trayTooltip : Option String
  exitCode : Option Int
  deriving DecidableEq

/-- Mirrors `window.show()`: makes the window visible, or fails. -/
def winShow (env : WinEnv) (w : Window) : Except String Window :=
  if env.showOk then .ok { w with visible := true } else .error "show failed"

/-- Mirrors `window.hide()`: hides the window, or fails. -/
def winHide (env : WinEnv) (w : Window) : Except String Window :=
  if env.hideOk then .ok { w with visible := false } else .error "hide failed"

/-- Mirrors `window.set_focus()`: transfers input focus, or fails. -/
def winSetFocus (env : WinEnv) (w : Window) : Except String Window :=
  if env.focusOk then .ok { w with focused := true } else .error "set focus failed"

/-- Mirrors `window.is_visible()`: queries visibility, or fails. -/
def winIsVisible (env : WinEnv) (w : Window) : Except String Bool :=
  if env.visQueryOk then .ok w.visible else .error "visibility query failed"

/-- Mirrors `let _ = <call>`: the result of a fallible window call with the
error discarded, leaving the window as it was on failure. -/
def discardErr (w : Window) (r : Except String Window) : Window :=
  match r with
  | .ok w2 => w2
  | .error _ => w

/-- Mirrors the `show_main_window` command: no-op without a main window,
otherwise `show()?` then `set_focus()?`. -/
def show_main_window (env : WinEnv) (st : AppState) : Except String AppState :=
  match st.window with
  | none => .ok st
  | some w =>
    match winShow env w with
    | .error e => .error e
    | .ok w1 =>
      match winSetFocus env w1 with
      | .error e => .error e
      | .ok w2 => .ok { st with window := some w2 }

/-- Mirrors the `hide_main_window` command: no-op without a main window,
otherwise `hide()?`. -/
def hide_main_window (env : WinEnv) (st : AppState) : Except String AppState :=
  match st.window with
  | none => .ok st
  | some w =>
    match winHide env w with
    | .error e => .error e
    | .ok w1 => .ok { st with window := some w1 }

/-- Mirrors the `update_tray_tooltip` command: no-op when no tray with id
"main" exists, otherwise `set_tooltip(...)?`. -/
def update_tray_tooltip (env : WinEnv) (st : AppState) (tooltip : String) : Except String AppState :=
  if st.trayExists then
    if env.tooltipOk then .ok { st with trayTooltip := some tooltip }
    else .error "set tooltip failed"
  else .ok st

/-- Mouse buttons of a tray click, mirroring `tauri::tray::MouseButton`. -/
inductive MouseButton where
  | left
  | right
  | middle
  deriving DecidableEq

/-- Mouse button states, mirroring `tauri::tray::MouseButtonState`. -/
inductive MouseButtonState where
  | up
  | down
  deriving DecidableEq

/-- Tray icon events, mirroring the variants of `tauri::tray::TrayIconEvent`
(payload fields the handler ignores are omitted). -/
inductive TrayIconEvent where
  | click (button : MouseButton) (buttonState : MouseButtonState)
  | doubleClick (button : MouseButton)
  | enter
  | move
  | leave
  deriving DecidableEq

/-- Mirrors the closure passed to `on_tray_icon_event`: on a left-button-up
click, toggle the main window (visibility read with `unwrap_or(false)`, all
call errors discarded); every other event is ignored. -/
def on_tray_icon_event (env : WinEnv) (st : AppState) (ev : TrayIconEvent) : AppState :=
  match ev with
  | .click .left .up =>
    match st.window with
    | none => st
    | some w =>
      if (winIsVisible env w).toOption.getD false then
        { st with window := some (discardErr w (winHide env w)) }
      else
        let w1 := discardErr w (winShow env w)
        let w2 := discardErr w1 (winSetFocus env w1)
        { st with window := some w2 }
  | _ => st

/-- Mirrors the closure passed to `on_menu_event`: dispatch on the menu id
"show" / "hide" / "quit" (call errors discarded, quit exits with code 0);
every other id is ignored. -/
def on_menu_event (env : WinEnv) (st : AppState) (menuId : String) : AppState :=
  if menuId = "show" then
    match st.window with
    | none => st
    | some w =>
      let w1 := discardErr w (winShow env w)
      let w2 := discardErr w1 (winSetFocus env w1)
      { st with window := some w2 }
  else if menuId = "hide" then
    match st.window with
    | none => st
    | some w => { st with window := some (discardErr w (winHide env w)) }
  else if menuId = "quit" then
    { st with exitCode := some 0 }
  else
    st

/-- The environment in which every host call succeeds. -/
def allOk : WinEnv :=
  { showOk := true, hideOk := true, focusOk := true, visQueryOk := true, tooltipOk := true }

/-- The environment in which every host call fails. -/
def failEnv : WinEnv :=
  { showOk := false, hideOk := false, focusOk := false, visQueryOk := false, tooltipOk := false }

/-- C4: with all host calls succeeding, a tray left-button-up click toggles
the main window: hidden becomes visible and focused, visible becomes hidden,
and two clicks restore the original visibility. -/
theorem tray_left_click_toggles (st : AppState) (w : Window) (h : st.window = some w) :
    (w.visible = false →
        (on_tray_icon_event allOk st (.click .left .up)).window =
          some { w with visible := true, focused := true })
    ∧ (w.visible = true →
        (on_tray_icon_event allOk st (.click .left .up)).window =
          some { w with visible := false })
    ∧ (on_tray_icon_event allOk (on_tray_icon_event allOk st (.click .left .up))
        (.click .left .up)).window.map Window.visible = some w.visible := by
  cases hv : w.visible <;>
    simp [on_tray_icon_event, h, winIsVisible, winShow, winHide, winSetFocus, discardErr,
      allOk, Except.toOption, hv]

/-- A visible, unfocused main window. -/
def wVisible : Window := { visible := true, focused := false }

/-- An application state whose main window is visible. -/
def stVisible : AppState :=
  { window := some wVisible, trayExists := true, trayTooltip := none, exitCode := none }

/-- C4 witness: one click hides the visible window, a second click restores
its original visibility. -/
theorem tray_left_click_toggles_witness :
    (on_tray_icon_event allOk stVisible (.click .left .up)).window =
        some { wVisible with visible := false }
      ∧ (on_tray_icon_event allOk (on_tray_icon_event allOk stVisible (.click .left .up))
          (.click .left .up)).window.map Window.visible = some wVisible.visible :=
  ⟨(tray_left_click_toggles stVisible wVisible rfl).2.1 rfl,
    (tray_left_click_toggles stVisible wVisible rfl).2.2⟩

/-- C5: selecting the "quit" menu item sets exit code 0 whatever the window
state, and no other handler or command of this subsystem changes the exit
code. -/
theorem quit_menu_exit_spec (env : WinEnv) (st : AppState) :
    on_menu_event env st "quit" = { st with exitCode := some 0 }
    ∧ (∀ menuId, menuId ≠ "quit" → (on_menu_event env st menuId).exitCode = st.exitCode)
    ∧ (∀ ev, (on_tray_icon_event env st ev).exitCode = st.exitCode)
    ∧ (∀ st2, show_main_window env st = .ok st2 → st2.exitCode = st.exitCode)
    ∧ (∀ st2, hide_main_window env st = .ok st2 → st2.exitCode = st.exitCode)
    ∧ (∀ tooltip st2, update_tray_tooltip env st tooltip = .ok st2 →
        st2.exitCode = st.exitCode) := by
  refine ⟨?_, ?_, ?_, ?_, ?_, ?_⟩
  · simp [on_menu_event]
  · intro menuId hq
    simp only [on_menu_event]
    by_cases h1 : menuId = "show"
    · rw [if_pos h1]
      cases hw : st.window <;> simp
    · rw [if_neg h1]
      by_cases h2 : menuId = "hide"
      · rw [if_pos h2]
        cases hw : st.window <;> simp
      · rw [if_neg h2, if_neg hq]
  · intro ev
    cases ev with
    | click b bs =>
      cases b with
      | left =>
        cases bs with
        | up =>
          simp only [on_tray_icon_event]
          cases hw : st.window with
          | none => rfl
          | some w =>
            by_cases hv : (winIsVisible env w).toOption.getD false = true <;> simp [hv]
        | down => rfl
      | right => rfl
      | middle => rfl
    | doubleClick b => rfl
    | enter => rfl
    | move => rfl
    | leave => rfl
  · intro st2 h
    unfold show_main_window winShow winSetFocus at h
    cases hw : st.window with
    | none =>
      rw [hw] at h
      simp at h
      subst h
      rfl
    | some w =>
      rw [hw] at h
      by_cases hs : env.showOk = true
      · by_cases hf : env.focusOk = true
        · simp [hs, hf] at h
          subst h
          rfl
        · simp [hs, hf] at h
      · simp [hs] at h
  · intro st2 h
    unfold hide_main_window winHide at h
    cases hw : st.window with
    | none =>
      rw [hw] at h
      simp at h
      subst h
      rfl
    | some w =>
      rw [hw] at h
      by_cases hh : env.hideOk = true
      · simp [hh] at h
        subst h
        rfl
      · simp [hh] at h
  · intro tooltip st2 h
    unfold update_tray_tooltip at h
    by_cases ht : st.trayExists = true
    · by_cases hp : env.tooltipOk = true
      · simp [ht, hp] at h
        subst h
        rfl
      · simp [ht, hp] at h
    · simp [ht] at h
      subst h
      rfl

/-- C5 witness: the quit selection from a visible-window state sets exit
code 0, while an unknown menu id and a tray enter event leave it unchanged. -/
theorem quit_menu_exit_spec_witness :
    on_menu_event allOk stVisible "quit" = { stVisible with exitCode := some 0 }
      ∧ (on_menu_event allOk stVisible "settings").exitCode = stVisible.exitCode
      ∧ (on_tray_icon_event allOk stVisible .enter).exitCode = stVisible.exitCode :=
  ⟨(quit_menu_exit_spec allOk stVisible).1,
    (quit_menu_exit_spec allOk stVisible).2.1 "settings" (by decide),
    (quit_menu_exit_spec allOk stVisible).2.2.1 .enter⟩

/-- C6: `show_main_window` and `hide_main_window` succeed as no-ops when no
main window exists; with a window, a successful show makes it visible and
focused, and a successful hide hides it. -/
theorem show_hide_noop_or_act (env : WinEnv) (st : AppState) :
    (st.window = none → show_main_window env st = .ok st ∧ hide_main_window env st = .ok st)
    ∧ (∀ w, st.window = some w → env.showOk = true → env.focusOk = true →
        show_main_window env st =
          .ok { st with window := some { w with visible := true, focused := true } })
    ∧ (∀ w, st.window = some w → env.hideOk = true →
        hide_main_window env st = .ok { st with window := some { w with visible := false } }) := by
  refine ⟨?_, ?_, ?_⟩
  · intro h
    simp [show_main_window, hide_main_window, h]
  · intro w hw hs hf
    simp [show_main_window, hw, winShow, winSetFocus, hs, hf]
  · intro w hw hh
    simp [hide_main_window, hw, winHide, hh]

/-- An application state with no main window. -/
def stNoWindow : AppState :=
  { window := none, trayExists := true, trayTooltip := none, exitCode := none }

/-- A hidden, unfocused main window. -/
def wHidden : Window := { visible := false, focused := false }

/-- An application state whose main window is hidden. -/
def stHidden : AppState :=
  { window := some wHidden, trayExists := true, trayTooltip := none, exitCode := none }

/-- C6 witness: without a window both commands are successful no-ops; with a
hidden window, show yields a visible focused window and hide a hidden one. -/
theorem show_hide_noop_or_act_witness :
    show_main_window allOk stNoWindow = .ok stNoWindow
      ∧ show_main_window allOk stHidden =
          .ok { stHidden with window := some { wHidden with visible := true, focused := true } }
      ∧ hide_main_window allOk stHidden =
          .ok { stHidden with window := some { wHidden with visible := false } } :=
  ⟨((show_hide_noop_or_act allOk stNoWindow).1 rfl).1,
    (show_hide_noop_or_act allOk stHidden).2.1 wHidden rfl rfl rfl,
    (show_hide_noop_or_act allOk stHidden).2.2 wHidden rfl rfl⟩

/-- C7: the tray and menu handlers never propagate an error and ignore every
event other than the three menu ids and the left-button-up click: unmatched
events leave the state unchanged for every environment, and with every host
call failing the handlers still return normally with the state unchanged. -/
theorem handlers_swallow_errors (st : AppState) :
    (∀ env b bs, ¬(b = MouseButton.left ∧ bs = MouseButtonState.up) →
        on_tray_icon_event env st (.click b bs) = st)
    ∧ (∀ env : WinEnv, on_tray_icon_event env st .enter = st
        ∧ on_tray_icon_event env st .move = st
        ∧ on_tray_icon_event env st .leave = st
        ∧ ∀ b, on_tray_icon_event env st (.doubleClick b) = st)
    ∧ (∀ env menuId, menuId ≠ "show" → menuId ≠ "hide" → menuId ≠ "quit" →
        on_menu_event env st menuId = st)
    ∧ (∀ ev, on_tray_icon_event failEnv st ev = st)
    ∧ (∀ menuId, menuId ≠ "quit" → on_menu_event failEnv st menuId = st) := by
  refine ⟨?_, ?_, ?_, ?_, ?_⟩
  · intro env b bs hne
    cases b <;> cases bs <;> first
      | rfl
      | exact absurd ⟨rfl, rfl⟩ hne
  · intro env
    exact ⟨rfl, rfl, rfl, fun b => rfl⟩
  · intro env menuId h1 h2 h3
    unfold on_menu_event
    rw [if_neg h1, if_neg h2, if_neg h3]
  · intro ev
    cases ev with
    | click b bs =>
      cases b with
      | left =>
        cases bs with
        | up =>
          simp only [on_tray_icon_event]
          cases hw : st.window with
          | none => rfl
          | some w =>
            simp [winIsVisible, winShow, winSetFocus, discardErr, failEnv, Except.toOption]
            rw [← hw]
        | down => rfl
      | right => rfl
      | middle => rfl
    | doubleClick b => rfl
    | enter => rfl
    | move => rfl
    | leave => rfl
  · intro menuId hq
    unfold on_menu_event
    by_cases h1 : menuId = "show"
    · rw [if_pos h1]
      cases hw : st.window with
      | none => rfl
      | some w =>
        simp [winShow, winSetFocus, discardErr, failEnv]
        rw [← hw]
    · rw [if_neg h1]
      by_cases h2 : menuId = "hide"
      · rw [if_pos h2]
        cases hw : st.window with
        | none => rfl
        | some w =>
          simp [winHide, discardErr, failEnv]
          rw [← hw]
      · rw [if_neg h2, if_neg hq]

/-- C7 witness: a right-button click, an unknown menu id, and a left click
under the all-failing environment each leave a concrete state unchanged. -/
theorem handlers_swallow_errors_witness :
    on_tray_icon_event allOk stVisible (.click .right .up) = stVisible
      ∧ on_menu_event allOk stVisible "settings" = stVisible
      ∧ on_tray_icon_event failEnv stVisible (.click .left .up) = stVisible :=
  ⟨(handlers_swallow_errors stVisible).1 allOk .right .up (by decide),
    (handlers_swallow_errors stVisible).2.2.1 allOk "settings" (by decide) (by decide) (by decide),
    (handlers_swallow_errors stVisible).2.2.2.1 (.click .left .up)⟩

/-- C9: when the visibility query fails in the tray left-click handler, the
window is treated as not visible, so the handler takes the show-and-focus
branch (here with show and focus succeeding) instead of propagating the
failure - even when the window was in fact visible. -/
theorem vis_query_failure_defaults_hidden (env : WinEnv) (st : AppState) (w : Window)
    (hq : env.visQueryOk = false) (hw : st.window = some w)
    (hs : env.showOk = true) (hf : env.focusOk = true) :
    on_tray_icon_event env st (.click .left .up) =
      { st with window := some { w with visible := true, focused := true } } := by
  simp [on_tray_icon_event, hw, winIsVisible, winShow, winSetFocus, discardErr, hq, hs, hf,
    Except.toOption]

/-- An environment whose visibility query fails but whose other calls
succeed. -/
def envNoQuery : WinEnv :=
  { showOk := true, hideOk := true, focusOk := true, visQueryOk := false, tooltipOk := true }

/-- C9 witness: with the query failing on an already-visible window, the
left click still takes the show-and-focus branch. -/
theorem vis_query_failure_defaults_hidden_witness :
    on_tray_icon_event envNoQuery stVisible (.click .left .up) =
      { stVisible with window := some { wVisible with visible := true, focused := true } } :=
  vis_query_failure_defaults_hidden envNoQuery stVisible wVisible rfl rfl rfl rfl

/-- C10: `update_tray_tooltip` succeeds without acting when no tray with id
"main" exists, and fails exactly when the tray exists and setting its
tooltip fails. -/
theorem update_tray_tooltip_spec (env : WinEnv) (st : AppState) (tooltip : String) :
    (st.trayExists = false → update_tray_tooltip env st tooltip = .ok st)
    ∧ (∀ e, update_tray_tooltip env st tooltip = .error e →
        st.trayExists = true ∧ env.tooltipOk = false)
    ∧ (st.trayExists = true → env.tooltipOk = true →
        update_tray_tooltip env st tooltip = .ok { st with trayTooltip := some tooltip }) := by
  refine ⟨?_, ?_, ?_⟩
  · intro h
    simp [update_tray_tooltip, h]
  · intro e h
    unfold update_tray_tooltip at h
    by_cases ht : st.trayExists = true
    · by_cases hp : env.tooltipOk = true
      · simp [ht, hp] at h
      · exact ⟨ht, by simpa using hp⟩
    · simp [ht] at h
  · intro ht hp
    simp [update_tray_tooltip, ht, hp]

/-- An application state with no tray icon. -/
def stNoTray : AppState :=
  { window := none, trayExists := false, trayTooltip := none, exitCode := none }

/-- C10 witness: without a tray the command is a successful no-op; with one
it sets the tooltip. -/
theorem update_tray_tooltip_spec_witness :
    update_tray_tooltip allOk stNoTray "Kimai" = .ok stNoTray
      ∧ update_tray_tooltip allOk stNoWindow "Kimai" =
          .ok { stNoWindow with trayTooltip := some "Kimai" } :=
  ⟨(update_tray_tooltip_spec allOk stNoTray "Kimai").1 rfl,
    (update_tray_tooltip_spec allOk stNoWindow "Kimai").2.2 rfl rfl⟩

end KimaiApp
